import Mathlib

/-!
Verification of the AlphaPy pipeline orchestrator (`alphapy/__main__.py` and
`alphapy/alpha.py`) against its natural-language specification.

The two source files define the same four orchestrator functions
(`data_pipeline`, `model_pipeline`, `score_with_model`, `main_pipeline`);
they differ only in a few guards, captured below by the `Variant` type
(`Variant.main` for `__main__.py`, `Variant.alphaMod` for `alpha.py`).
External collaborators (feature transforms, estimator fitting, prediction,
blending, metrics) are abstracted as functions over an abstract model-state
type, exactly as the orchestrator treats them; the orchestrator's own control
flow, guards, exception behaviour and event ordering are translated directly
from the Python source.  Every orchestrator call is recorded in an event
trace so that "stage X ran / did not run" properties can be stated.
-/

namespace AlphaPy

/-- Model type, from `alphapy.estimators.ModelType`. -/
inductive MType where
  | classification
  | regression
deriving DecidableEq, Repr

/-- A rectangular feature table: a column count together with the list of
rows (row contents abstract).  `pandas` concatenation and `np.array_split`
act on the row list. -/
structure Table (α : Type) where
  cols : Nat
  rows : List α
deriving DecidableEq, Repr

/-- A resolved estimator registry entry, as consumed by the loop in
`model_pipeline`: its identity, whether `estimator.scoring` is truthy
(a usable scoring function), and whether `hasattr(est, "coef_")`. -/
structure Estimator where
  ename : String
  scoring : Bool
  hasCoef : Bool
deriving DecidableEq, Repr

/-- The configuration options `model_pipeline` / `score_with_model` unpack
from `model.specs`. -/
structure MPSpecs where
  calibration : Bool
  feature_selection : Bool
  grid_search : Bool
  model_type : MType
  rfe : Bool
  sampling : Bool
  scorer : String
  test_labels : Bool
deriving DecidableEq, Repr

/-- Which of the two historical entry points is being run:
`__main__.py` (`main`) or `alpha.py` (`alphaMod`). -/
inductive Variant where
  | main
  | alphaMod
deriving DecidableEq, Repr

/-- Python exceptions the orchestrator can raise or propagate. -/
inductive PyErr where
  | keyError (msg : String)
  | nameError (var : String)
  | indexError (trainCols testCols : Nat)
  | loadFailure
deriving DecidableEq, Repr

/-- Events recording each orchestrator action, in program order.  The
`firstFit` event records the model state passed to `first_fit`, so that
theorems can observe which (possibly mutated) state an algorithm's fit saw. -/
inductive Ev (σ : Type) where
  | logModelPipeline
  | shuffleData
  | logSkipSampling
  | sampleData
  | sampleWeights
  | getEstimators
  | logNotFound (algo : String)
  | selectFeatures
  | firstFit (algo : String) (est : String) (mseen : σ)
  | rfecv (algo : String)
  | rfeCoef (algo : String)
  | logNoRFE (algo : String)
  | gridSearch (est : String)
  | makePredictions (algo : String)
  | blend
  | metrics (split : String)
  | predictBest
  | plots (split : String)
  | saveModel (tag : String) (split : String)
  | logScoring
  | loadModel
  | predictTest
  | predictProba
deriving DecidableEq, Repr

/-- The external collaborator functions called by `model_pipeline`, acting on
an abstract model-state type `σ` (the Python `model` aggregate).  String
arguments are the algorithm / estimator identifiers the source passes. -/
structure Collab (σ : Type) where
  shuffle_data : σ → σ
  sample_data : σ → σ
  get_sample_weights : σ → σ
  select_features : σ → σ
  first_fit : σ → String → String → σ
  rfecv_search : σ → String → σ
  rfe_search : σ → String → σ
  hyper_grid_search : σ → String → σ
  make_predictions : σ → String → Bool → σ
  predict_blend : σ → σ
  generate_metrics : σ → String → σ
  predict_best : σ → σ

/-- The external feature transforms called by `data_pipeline`. -/
structure Transforms (α : Type) where
  create_features : Table α → Nat → Table α
  create_interactions : Table α → Table α
  remove_lv_features : Table α → Table α

/-- The model aggregate as seen by `data_pipeline` / `score_with_model`:
the current train/test feature tables plus the rest of the aggregate. -/
structure MState (α σ : Type) where
  xTrain : Table α
  xTest : Table α
  rest : σ
deriving DecidableEq, Repr

/-- `np.array_split(t, [p])` along the row axis: first `p` rows, remainder. -/
def array_split2 {α : Type} (t : Table α) (p : Nat) : Table α × Table α :=
  (⟨t.cols, t.rows.take p⟩, ⟨t.cols, t.rows.drop p⟩)

/-- Observation record of one `data_pipeline` run: the recorded split point,
the merged working table built by `pd.concat`, and the `(X_train, X_test)`
snapshot passed to each of the three `save_features` calls, in order. -/
structure DPLog (α : Type) where
  split_point : Nat
  merged : Table α
  snaps : List (Table α × Table α)
deriving DecidableEq, Repr

/-- `data_pipeline` from the merge step on (`get_data` has already populated
the tables; `drop_features` is the external `dropF`).  Directly follows the
source: check column counts, raising `IndexError` naming both counts when
unequal; else concatenate, record `split_point = X_train.shape[0]`, apply the
three external transforms, re-splitting at `split_point` after each and
saving the snapshot; `save_features` overwrites the aggregate's tables. -/
def data_pipeline {α σ : Type} (tf : Transforms α) (dropF : Table α → Table α)
    (m : MState α σ) : Except PyErr (MState α σ × DPLog α) :=
  let xtr := dropF m.xTrain
  let xte := dropF m.xTest
  if xtr.cols = xte.cols then
    let split_point := xtr.rows.length
    let X : Table α := ⟨xtr.cols, xtr.rows ++ xte.rows⟩
    let nf := tf.create_features X split_point
    let s1 := array_split2 nf split_point
    let af := tf.create_interactions nf
    let s2 := array_split2 af split_point
    let sf := tf.remove_lv_features af
    let s3 := array_split2 sf split_point
    Except.ok ({ xTrain := s3.1, xTest := s3.2, rest := m.rest },
               { split_point := split_point, merged := X, snaps := [s1, s2, s3] })
  else
    Except.error (PyErr.indexError xtr.cols xte.cols)

/-- The guard on `select_features` inside the per-algorithm loop.  This is
the one loop-body difference between the two entry points:
`__main__.py` line 370 reads `if feature_selection:` while
`alpha.py` line 216 reads `if feature_selection and not grid_search:`. -/
def fsGate (v : Variant) (sp : MPSpecs) : Bool :=
  match v with
  | Variant.main => sp.feature_selection
  | Variant.alphaMod => sp.feature_selection && !sp.grid_search

/-- The recursive-feature-elimination branch of the loop body (identical in
both sources): cross-validated elimination when `scoring` is truthy, else
coefficient-based elimination when the estimator has `coef_`, else a logged
skip; when `rfe` is off, nothing. -/
def rfeStage {σ : Type} (C : Collab σ) (sp : MPSpecs) (e : Estimator)
    (algo : String) (m : σ) : σ × List (Ev σ) :=
  if sp.rfe then
    if e.scoring then (C.rfecv_search m algo, [Ev.rfecv algo])
    else if e.hasCoef then (C.rfe_search m algo, [Ev.rfeCoef algo])
    else (m, [Ev.logNoRFE algo])
  else (m, [])

/-- One iteration of the `for algo in model.algolist` loop.  The state
carries, besides the model aggregate, the current value of the Python local
variables `estimator`/`scoring`/`est` as an `Option Estimator`: they are
assigned together on a successful registry lookup and — because the
`except KeyError` handler only logs — keep their previous value when the
lookup fails.  When they have never been assigned, the use of `est` in
`first_fit(model, algo, est)` raises `NameError`.  Note the loop body does
NOT skip an unresolved algorithm: after the handler it falls through to
feature selection, fit, RFE, grid search and predictions. -/
def loop_step {σ : Type} (C : Collab σ) (sp : MPSpecs) (v : Variant)
    (es : List (String × Estimator)) (st : σ × Option Estimator) (algo : String) :
    Except PyErr (σ × Option Estimator × List (Ev σ)) :=
  let resolved := List.lookup algo es
  let cur : Option Estimator := match resolved with
    | some e => some e
    | none => st.2
  let t0 : List (Ev σ) := match resolved with
    | some _ => []
    | none => [Ev.logNotFound algo]
  let m1 := if fsGate v sp then C.select_features st.1 else st.1
  let t1 : List (Ev σ) := if fsGate v sp then [Ev.selectFeatures] else []
  match cur with
  | none => Except.error (PyErr.nameError "est")
  | some e =>
    let m2 := C.first_fit m1 algo e.ename
    let r := rfeStage C sp e algo m2
    let m3 := if sp.grid_search then C.hyper_grid_search r.1 e.ename else r.1
    let t3 : List (Ev σ) := if sp.grid_search then [Ev.gridSearch e.ename] else []
    let m4 := C.make_predictions m3 algo sp.calibration
    Except.ok (m4, cur,
      t0 ++ t1 ++ Ev.firstFit algo e.ename m1 :: (r.2 ++ t3 ++ [Ev.makePredictions algo]))

/-- The whole per-algorithm loop, threading the shared model state and the
loop-local estimator variables through the iterations in list order. -/
def model_loop {σ : Type} (C : Collab σ) (sp : MPSpecs) (v : Variant)
    (es : List (String × Estimator)) :
    List String → σ × Option Estimator → Except PyErr (σ × Option Estimator × List (Ev σ))
  | [], st => Except.ok (st.1, st.2, [])
  | a :: rest, st =>
    match loop_step C sp v es st a with
    | Except.error e => Except.error e
    | Except.ok (m, oe, tr) =>
      match model_loop C sp v es rest (m, oe) with
      | Except.error e => Except.error e
      | Except.ok (m2, oe2, tr2) => Except.ok (m2, oe2, tr ++ tr2)

/-- The sampling block before the loop.  `__main__.py` gates sampling and
sample weights on classification; `alpha.py` runs them unconditionally. -/
def sampling_stage {σ : Type} (C : Collab σ) (sp : MPSpecs) (v : Variant)
    (m : σ) : σ × List (Ev σ) :=
  let body : σ × List (Ev σ) :=
    if sp.sampling then
      (C.get_sample_weights (C.sample_data m), [Ev.sampleData, Ev.sampleWeights])
    else
      (C.get_sample_weights m, [Ev.logSkipSampling, Ev.sampleWeights])
  match v with
  | Variant.main =>
    if sp.model_type = MType.classification then body else (m, [])
  | Variant.alphaMod => body

/-- `model_pipeline`, translated stage by stage from the source: shuffle,
sampling block, `get_estimators`, the scorer-registry check
(`raise KeyError` when `scorer not in scorers`), the per-algorithm loop,
the blend guard `if len(model.algolist) > 1`, metrics on train and test,
`predict_best`, plots, and `save_model(model, 'BEST', 'test')`.
A raised exception is returned together with the event trace accumulated
before the raise, so that "nothing ran after the error" is observable. -/
def model_pipeline {σ : Type} (C : Collab σ) (sp : MPSpecs) (v : Variant)
    (es : List (String × Estimator)) (scorersReg : List String)
    (algolist : List String) (m : σ) :
    Except (PyErr × List (Ev σ)) (σ × List (Ev σ)) :=
  let m1 := C.shuffle_data m
  let s := sampling_stage C sp v m1
  let pre := Ev.logModelPipeline :: Ev.shuffleData :: (s.2 ++ [Ev.getEstimators])
  if sp.scorer ∈ scorersReg then
    match model_loop C sp v es algolist (s.1, none) with
    | Except.error e => Except.error (e, pre)
    | Except.ok (m2, _, tl) =>
      let b : σ × List (Ev σ) :=
        if algolist.length > 1 then (C.predict_blend m2, [Ev.blend]) else (m2, [])
      let m3 := C.generate_metrics b.1 "train"
      let m4 := C.generate_metrics m3 "test"
      let m5 := C.predict_best m4
      let tp := Ev.plots "train" :: (if sp.test_labels then [Ev.plots "test"] else [])
      Except.ok (m5, pre ++ tl ++ b.2 ++
        (Ev.metrics "train" :: Ev.metrics "test" :: Ev.predictBest :: tp) ++
        [Ev.saveModel "BEST" "test"])
  else
    Except.error (PyErr.keyError sp.scorer, pre)

/-- What `score_with_model` computes locally: the predictions and, for
classification only, the probability scores.  The Python function returns
`None`; this record is its observable output, which `main_pipeline`
discards. -/
structure ScoreRecord (β : Type) where
  preds : β
  probas : Option β
deriving DecidableEq, Repr

/-- `score_with_model` (identical in both sources): load the persisted model
object from the configured directory (`persisted` is what the persistence
collaborator finds there; `none` means no persisted model, a fatal load
failure), then `predictor.predict(X_test)` on the aggregate's current test
features, then `predict_proba` for classification only.  No training, no
metric computation, no model mutation. -/
def score_with_model {α σ π β : Type} (persisted : Option π)
    (predictF : π → Table α → β) (predict_probaF : π → Table α → β)
    (mt : MType) (m : MState α σ) :
    Except (PyErr × List (Ev (MState α σ))) (ScoreRecord β × List (Ev (MState α σ))) :=
  match persisted with
  | none => Except.error (PyErr.loadFailure, [Ev.logScoring])
  | some p =>
    let preds := predictF p m.xTest
    if mt = MType.classification then
      Except.ok ({ preds := preds, probas := some (predict_probaF p m.xTest) },
                 [Ev.logScoring, Ev.loadModel, Ev.predictTest, Ev.predictProba])
    else
      Except.ok ({ preds := preds, probas := none },
                 [Ev.logScoring, Ev.loadModel, Ev.predictTest])

/-- `main_pipeline` (same structure in both sources): run `data_pipeline`,
then branch on the scoring flag; in scoring mode call `score_with_model`
without binding its result (`return model` returns the data-pipeline
aggregate), else `model = model_pipeline(model)`. -/
def main_pipeline {α σ π β : Type} (tf : Transforms α) (dropF : Table α → Table α)
    (C : Collab (MState α σ)) (sp : MPSpecs) (scoring_mode : Bool) (v : Variant)
    (es : List (String × Estimator)) (scorersReg : List String)
    (algolist : List String) (persisted : Option π)
    (predictF : π → Table α → β) (predict_probaF : π → Table α → β)
    (m : MState α σ) :
    Except (PyErr × List (Ev (MState α σ))) (MState α σ × List (Ev (MState α σ))) :=
  match data_pipeline tf dropF m with
  | Except.error e => Except.error (e, [])
  | Except.ok (m1, _) =>
    if scoring_mode then
      match score_with_model persisted predictF predict_probaF sp.model_type m1 with
      | Except.error et => Except.error et
      | Except.ok (_, tr) => Except.ok (m1, tr)
    else
      model_pipeline C sp v es scorersReg algolist m1

/-- The event trace of a pipeline result (also reported on the error side). -/
def resTrace {ε ρ : Type} (r : Except (PyErr × List ε) (ρ × List ε)) : List ε :=
  match r with
  | Except.error (_, t) => t
  | Except.ok (_, t) => t

/-- The event trace of a loop / loop-step result (empty when the iteration
raised, since the raise discards the iteration's work). -/
def stepTrace {σ ε : Type} (r : Except PyErr (σ × Option Estimator × List ε)) : List ε :=
  match r with
  | Except.error _ => []
  | Except.ok (_, _, t) => t

/-- The algorithm id of a `makePredictions` event, if any. -/
def artifactOf {σ : Type} : Ev σ → Option String
  | Ev.makePredictions a => some a
  | _ => none

/-- The algorithms for which `make_predictions` ran, i.e. which got
per-algorithm prediction artifacts attached, in order. -/
def artifactAlgos {σ : Type} (tr : List (Ev σ)) : List String :=
  tr.filterMap artifactOf

/-- The model state recorded by a `firstFit` event, if any. -/
def fitStateOf {σ : Type} : Ev σ → Option σ
  | Ev.firstFit _ _ s => some s
  | _ => none

/-- The model states recorded at each `first_fit` call, in order. -/
def firstFitStates {σ : Type} (tr : List (Ev σ)) : List σ :=
  tr.filterMap fitStateOf

/-- Events that can only arise inside the per-algorithm loop body. -/
def isLoopEv {σ : Type} : Ev σ → Bool
  | Ev.logNotFound _ => true
  | Ev.selectFeatures => true
  | Ev.firstFit _ _ _ => true
  | Ev.rfecv _ => true
  | Ev.rfeCoef _ => true
  | Ev.logNoRFE _ => true
  | Ev.gridSearch _ => true
  | Ev.makePredictions _ => true
  | _ => false

/-! ### Concrete instances used to exercise the definitions -/

/-- Collaborators over a `Nat` model state that leave the state unchanged. -/
def idCollab : Collab Nat where
  shuffle_data := id
  sample_data := id
  get_sample_weights := id
  select_features := id
  first_fit := fun m _ _ => m
  rfecv_search := fun m _ => m
  rfe_search := fun m _ => m
  hyper_grid_search := fun m _ => m
  make_predictions := fun m _ _ => m
  predict_blend := id
  generate_metrics := fun m _ => m
  predict_best := id

/-- Like `idCollab`, but `select_features` increments the state, so that the
feature-selection mutation observed by later algorithms can be counted. -/
def countCollab : Collab Nat := { idCollab with select_features := Nat.succ }

/-- A registry entry without a scoring function but with coefficients. -/
def estA : Estimator := { ename := "estA", scoring := false, hasCoef := true }

/-- A registry entry with a usable scoring function. -/
def estB : Estimator := { ename := "estB", scoring := true, hasCoef := false }

/-- A registry resolving only the algorithm id `B`. -/
def regB : List (String × Estimator) := [("B", estB)]

/-- A registry resolving the algorithm ids `A` and `B`. -/
def reg2 : List (String × Estimator) := [("A", estA), ("B", estB)]

/-- A baseline configuration with every optional stage disabled. -/
def specs0 : MPSpecs where
  calibration := false
  feature_selection := false
  grid_search := false
  model_type := MType.classification
  rfe := false
  sampling := false
  scorer := "auc"
  test_labels := false

/-- `specs0` with feature selection and grid search both enabled. -/
def specsFS : MPSpecs := { specs0 with feature_selection := true, grid_search := true }

/-- `specs0` with feature selection enabled and grid search disabled. -/
def specsFSNG : MPSpecs := { specs0 with feature_selection := true }

/-- `specs0` with a scorer name absent from the scorer registry. -/
def specsBad : MPSpecs := { specs0 with scorer := "bad" }

/-- `specs0` with recursive feature elimination requested. -/
def specsRfe : MPSpecs := { specs0 with rfe := true }

/-- Transforms that return their input table unchanged. -/
def idTransforms : Transforms Nat where
  create_features := fun t _ => t
  create_interactions := id
  remove_lv_features := id

/-- A concrete train table: 2 columns, rows labelled 0..2. -/
def tTrain : Table Nat := { cols := 2, rows := [0, 1, 2] }

/-- A concrete test table with the same column count. -/
def tTest : Table Nat := { cols := 2, rows := [3, 4] }

/-- A concrete test table with a mismatched column count. -/
def tBad : Table Nat := { cols := 3, rows := [9] }

/-- A well-formed concrete model aggregate. -/
def mWF : MState Nat Nat := { xTrain := tTrain, xTest := tTest, rest := 0 }

/-- A concrete model aggregate whose test table has the wrong column count. -/
def mBad : MState Nat Nat := { xTrain := tTrain, xTest := tBad, rest := 0 }

/-- The data-pipeline log produced on the concrete well-formed input. -/
def dpLog0 : DPLog Nat :=
  { split_point := 3, merged := { cols := 2, rows := [0, 1, 2, 3, 4] },
    snaps := [(tTrain, tTest), (tTrain, tTest), (tTrain, tTest)] }

/-- The model aggregate produced by the data pipeline on the concrete
well-formed input. -/
def dpOut0 : MState Nat Nat := { xTrain := tTrain, xTest := tTest, rest := 0 }

/-- Identity collaborators over the concrete `MState Nat Nat` aggregate. -/
def idCollabM : Collab (MState Nat Nat) where
  shuffle_data := id
  sample_data := id
  get_sample_weights := id
  select_features := id
  first_fit := fun m _ _ => m
  rfecv_search := fun m _ => m
  rfe_search := fun m _ => m
  hyper_grid_search := fun m _ => m
  make_predictions := fun m _ _ => m
  predict_blend := id
  generate_metrics := fun m _ => m
  predict_best := id

/-! ### Helper lemmas about the loop body and its trace -/

lemma rfeStage_evs {σ : Type} (C : Collab σ) (sp : MPSpecs) (e : Estimator)
    (algo : String) (m : σ) :
    ∀ x ∈ (rfeStage C sp e algo m).2,
      x = Ev.rfecv algo ∨ x = Ev.rfeCoef algo ∨ x = Ev.logNoRFE algo := by
  intro x hx
  unfold rfeStage at hx
  cases h1 : sp.rfe <;> simp [h1] at hx
  cases h2 : e.scoring <;> simp [h2] at hx
  · cases h3 : e.hasCoef <;> simp [h3] at hx
    · exact Or.inr (Or.inr hx)
    · exact Or.inr (Or.inl hx)
  · exact Or.inl hx

lemma sampling_stage_evs {σ : Type} (C : Collab σ) (sp : MPSpecs) (v : Variant) (m : σ) :
    ∀ x ∈ (sampling_stage C sp v m).2,
      x = Ev.logSkipSampling ∨ x = Ev.sampleData ∨ x = Ev.sampleWeights := by
  intro x hx
  unfold sampling_stage at hx
  cases v <;> simp only at hx
  · rcases hc : sp.model_type with _ | _ <;> simp [hc] at hx
    cases hs : sp.sampling <;> simp [hs] at hx <;> tauto
  · cases hs : sp.sampling <;> simp [hs] at hx <;> tauto

lemma step_ok_cases {σ : Type} (C : Collab σ) (sp : MPSpecs) (v : Variant)
    (es : List (String × Estimator)) (st : σ × Option Estimator) (algo : String)
    (m' : σ) (oe : Option Estimator) (tr : List (Ev σ))
    (h : loop_step C sp v es st algo = Except.ok (m', oe, tr)) :
    ∃ (e : Estimator) (t0 : List (Ev σ)),
      (t0 = [] ∨ t0 = [Ev.logNotFound algo]) ∧
      (List.lookup algo es = some e ∨ (List.lookup algo es = none ∧ st.2 = some e)) ∧
      oe = some e ∧
      tr = t0 ++ (if fsGate v sp then [Ev.selectFeatures] else []) ++
        Ev.firstFit algo e.ename (if fsGate v sp then C.select_features st.1 else st.1) ::
          ((rfeStage C sp e algo
              (C.first_fit (if fsGate v sp then C.select_features st.1 else st.1) algo e.ename)).2 ++
            (if sp.grid_search then [Ev.gridSearch e.ename] else []) ++
            [Ev.makePredictions algo]) ∧
      m' = C.make_predictions
          (if sp.grid_search then
            C.hyper_grid_search
              (rfeStage C sp e algo
                (C.first_fit (if fsGate v sp then C.select_features st.1 else st.1) algo e.ename)).1
              e.ename
          else
            (rfeStage C sp e algo
              (C.first_fit (if fsGate v sp then C.select_features st.1 else st.1) algo e.ename)).1)
          algo sp.calibration := by
  rcases hres : List.lookup algo es with _ | e0
  · rcases hst : st.2 with _ | e1
    · simp [loop_step, hres, hst] at h
    · simp only [loop_step, hres, hst] at h
      injection h with h
      injection h with hm h
      injection h with hoe htr
      exact ⟨e1, [Ev.logNotFound algo], Or.inr rfl, Or.inr ⟨rfl, rfl⟩, hoe.symm, htr.symm,
        hm.symm⟩
  · simp only [loop_step, hres] at h
    injection h with h
    injection h with hm h
    injection h with hoe htr
    exact ⟨e0, [], Or.inl rfl, Or.inl rfl, hoe.symm, htr.symm, hm.symm⟩

lemma artifactAlgos_append {σ : Type} (a b : List (Ev σ)) :
    artifactAlgos (a ++ b) = artifactAlgos a ++ artifactAlgos b :=
  List.filterMap_append a b artifactOf

lemma firstFitStates_append {σ : Type} (a b : List (Ev σ)) :
    firstFitStates (a ++ b) = firstFitStates a ++ firstFitStates b :=
  List.filterMap_append a b fitStateOf

lemma rfeStage_artifacts {σ : Type} (C : Collab σ) (sp : MPSpecs) (e : Estimator)
    (algo : String) (m : σ) : artifactAlgos (rfeStage C sp e algo m).2 = [] := by
  rw [artifactAlgos, List.filterMap_eq_nil_iff]
  intro x hx
  rcases rfeStage_evs C sp e algo m x hx with rfl | rfl | rfl <;> rfl

lemma rfeStage_states {σ : Type} (C : Collab σ) (sp : MPSpecs) (e : Estimator)
    (algo : String) (m : σ) : firstFitStates (rfeStage C sp e algo m).2 = [] := by
  rw [firstFitStates, List.filterMap_eq_nil_iff]
  intro x hx
  rcases rfeStage_evs C sp e algo m x hx with rfl | rfl | rfl <;> rfl

lemma step_ok_artifacts {σ : Type} (C : Collab σ) (sp : MPSpecs) (v : Variant)
    (es : List (String × Estimator)) (st : σ × Option Estimator) (algo : String)
    (m' : σ) (oe : Option Estimator) (tr : List (Ev σ))
    (h : loop_step C sp v es st algo = Except.ok (m', oe, tr)) :
    artifactAlgos tr = [algo] := by
  obtain ⟨e, t0, ht0, -, -, htr, -⟩ := step_ok_cases C sp v es st algo m' oe tr h
  subst htr
  have hr := rfeStage_artifacts C sp e algo
    (C.first_fit (if fsGate v sp then C.select_features st.1 else st.1) algo e.ename)
  rw [artifactAlgos] at hr ⊢
  rcases ht0 with rfl | rfl <;>
    by_cases hfs : fsGate v sp = true <;>
    by_cases hgs : sp.grid_search = true <;>
      simp [hfs, hgs] at hr ⊢ <;>
      simp [List.filterMap_append, List.filterMap_cons, artifactOf, hr] <;>
      exact fun a ha => hr a ha

lemma step_ok_states {σ : Type} (C : Collab σ) (sp : MPSpecs) (v : Variant)
    (es : List (String × Estimator)) (st : σ × Option Estimator) (algo : String)
    (m' : σ) (oe : Option Estimator) (tr : List (Ev σ))
    (h : loop_step C sp v es st algo = Except.ok (m', oe, tr)) :
    firstFitStates tr = [if fsGate v sp then C.select_features st.1 else st.1] := by
  obtain ⟨e, t0, ht0, -, -, htr, -⟩ := step_ok_cases C sp v es st algo m' oe tr h
  subst htr
  have hr := rfeStage_states C sp e algo
    (C.first_fit (if fsGate v sp then C.select_features st.1 else st.1) algo e.ename)
  rw [firstFitStates] at hr ⊢
  rcases ht0 with rfl | rfl <;>
    by_cases hfs : fsGate v sp = true <;>
    by_cases hgs : sp.grid_search = true <;>
      simp [hfs, hgs] at hr ⊢ <;>
      simp [List.filterMap_append, List.filterMap_cons, fitStateOf, hr] <;>
      exact fun a ha => hr a ha

lemma step_ok_mem {σ : Type} (C : Collab σ) (sp : MPSpecs) (v : Variant)
    (es : List (String × Estimator)) (st : σ × Option Estimator) (algo : String)
    (m' : σ) (oe : Option Estimator) (tr : List (Ev σ))
    (h : loop_step C sp v es st algo = Except.ok (m', oe, tr)) :
    ∀ x ∈ tr, isLoopEv x = true := by
  obtain ⟨e, t0, ht0, -, -, htr, -⟩ := step_ok_cases C sp v es st algo m' oe tr h
  subst htr
  refine List.forall_mem_append.2 ⟨List.forall_mem_append.2 ⟨?_, ?_⟩, ?_⟩
  · rcases ht0 with rfl | rfl <;> simp [isLoopEv]
  · by_cases hfs : fsGate v sp = true <;> simp [hfs, isLoopEv]
  · intro x hx
    rcases List.mem_cons.1 hx with rfl | hx2
    · rfl
    · rcases List.mem_append.1 hx2 with hx3 | hx3
      · rcases List.mem_append.1 hx3 with hx4 | hx4
        · rcases rfeStage_evs C sp e algo _ x hx4 with rfl | rfl | rfl <;> rfl
        · rcases (List.mem_ite_nil_right.1 hx4) with ⟨-, hx5⟩
          rcases List.mem_singleton.1 hx5 with rfl
          rfl
      · rcases List.mem_singleton.1 hx3 with rfl
        rfl

lemma loop_ok_artifacts {σ : Type} (C : Collab σ) (sp : MPSpecs) (v : Variant)
    (es : List (String × Estimator)) :
    ∀ (algos : List String) (st : σ × Option Estimator) (m' : σ)
      (oe : Option Estimator) (tr : List (Ev σ)),
      model_loop C sp v es algos st = Except.ok (m', oe, tr) →
      artifactAlgos tr = algos := by
  intro algos
  induction algos with
  | nil =>
    intro st m' oe tr h
    simp only [model_loop] at h
    injection h with h
    injection h with hm h
    injection h with hoe htr
    rw [← htr]
    rfl
  | cons a rest ih =>
    intro st m' oe tr h
    simp only [model_loop] at h
    rcases hs : loop_step C sp v es st a with e1 | s1
    · rw [hs] at h; exact absurd h (by simp)
    · rw [hs] at h
      obtain ⟨m1, oe1, tr1⟩ := s1
      dsimp only at h
      rcases hl : model_loop C sp v es rest (m1, oe1) with e2 | s2
      · rw [hl] at h; exact absurd h (by simp)
      · obtain ⟨m2, oe2, tr2⟩ := s2
        rw [hl] at h
        dsimp only at h
        injection h with h
        injection h with hm h
        injection h with hoe htr
        rw [← htr, artifactAlgos_append, step_ok_artifacts C sp v es st a m1 oe1 tr1 hs,
          ih (m1, oe1) m2 oe2 tr2 hl]
        rfl

lemma loop_ok_mem {σ : Type} (C : Collab σ) (sp : MPSpecs) (v : Variant)
    (es : List (String × Estimator)) :
    ∀ (algos : List String) (st : σ × Option Estimator) (m' : σ)
      (oe : Option Estimator) (tr : List (Ev σ)),
      model_loop C sp v es algos st = Except.ok (m', oe, tr) →
      ∀ x ∈ tr, isLoopEv x = true := by
  intro algos
  induction algos with
  | nil =>
    intro st m' oe tr h
    simp only [model_loop] at h
    injection h with h
    injection h with hm h
    injection h with hoe htr
    rw [← htr]
    intro x hx
    cases hx
  | cons a rest ih =>
    intro st m' oe tr h
    simp only [model_loop] at h
    rcases hs : loop_step C sp v es st a with e1 | s1
    · rw [hs] at h; exact absurd h (by simp)
    · rw [hs] at h
      obtain ⟨m1, oe1, tr1⟩ := s1
      dsimp only at h
      rcases hl : model_loop C sp v es rest (m1, oe1) with e2 | s2
      · rw [hl] at h; exact absurd h (by simp)
      · obtain ⟨m2, oe2, tr2⟩ := s2
        rw [hl] at h
        dsimp only at h
        injection h with h
        injection h with hm h
        injection h with hoe htr
        rw [← htr]
        intro x hx
        rcases List.mem_append.1 hx with hx | hx
        · exact step_ok_mem C sp v es st a m1 oe1 tr1 hs x hx
        · exact ih (m1, oe1) m2 oe2 tr2 hl x hx

lemma countCollab_rfeStage_fst (sp : MPSpecs) (e : Estimator) (algo : String) (m : Nat) :
    (rfeStage countCollab sp e algo m).1 = m := by
  unfold rfeStage
  cases h1 : sp.rfe <;> simp [countCollab, idCollab]
  cases h2 : e.scoring <;> simp
  cases h3 : e.hasCoef <;> simp

lemma countCollab_step (sp : MPSpecs) (v : Variant) (es : List (String × Estimator))
    (st : Nat × Option Estimator) (algo : String) (e : Estimator)
    (hres : List.lookup algo es = some e)
    (hfs : sp.feature_selection = true) (hgs : sp.grid_search = false) :
    ∃ tr, loop_step countCollab sp v es st algo = Except.ok (st.1 + 1, some e, tr) ∧
      firstFitStates tr = [st.1 + 1] := by
  have hfsg : fsGate v sp = true := by
    cases v <;> simp [fsGate, hfs, hgs]
  rcases hsv : loop_step countCollab sp v es st algo with err | s1
  · simp [loop_step, hres] at hsv
  · obtain ⟨m1, oe1, tr1⟩ := s1
    have hstates := step_ok_states countCollab sp v es st algo m1 oe1 tr1 hsv
    obtain ⟨e1, t0, -, hlk, hoe, -, hm⟩ :=
      step_ok_cases countCollab sp v es st algo m1 oe1 tr1 hsv
    have he1 : e1 = e := by
      rcases hlk with hlk | ⟨hlk, -⟩
      · rw [hres] at hlk
        injection hlk with hv
        exact hv.symm
      · rw [hres] at hlk; cases hlk
    subst he1
    have hsel : countCollab.select_features st.1 = st.1 + 1 := rfl
    have hm1 : m1 = st.1 + 1 := by
      rw [hm, hgs]
      simp only [Bool.false_eq_true, if_false, hfsg, if_true, hsel]
      rw [show countCollab.first_fit (st.1 + 1) algo e1.ename = st.1 + 1 from rfl]
      rw [countCollab_rfeStage_fst sp e1 algo (st.1 + 1)]
      rfl
    refine ⟨tr1, ?_, ?_⟩
    · rw [hm1, hoe]
    · rw [hstates, hfsg]
      simp only [if_true, hsel]

lemma countCollab_loop (sp : MPSpecs) (v : Variant) (es : List (String × Estimator))
    (hfs : sp.feature_selection = true) (hgs : sp.grid_search = false) :
    ∀ (algos : List String), (∀ a ∈ algos, (List.lookup a es).isSome = true) →
      ∀ (m0 : Nat) (oe0 : Option Estimator),
        ∃ oe1 tr, model_loop countCollab sp v es algos (m0, oe0) =
            Except.ok (m0 + algos.length, oe1, tr) ∧
          firstFitStates tr = (List.range algos.length).map (fun i => m0 + i + 1) := by
  intro algos
  induction algos with
  | nil =>
    intro _ m0 oe0
    exact ⟨oe0, [], by simp [model_loop], by simp [firstFitStates]⟩
  | cons a rest ih =>
    intro hall m0 oe0
    obtain ⟨e, he⟩ : ∃ e, List.lookup a es = some e := by
      have hh := hall a (by simp)
      rcases hla : List.lookup a es with _ | e
      · rw [hla] at hh; simp at hh
      · exact ⟨e, rfl⟩
    obtain ⟨tr1, hstep, hst1⟩ := countCollab_step sp v es (m0, oe0) a e he hfs hgs
    obtain ⟨oe1, tr2, hloop, hst2⟩ :=
      ih (fun x hx => hall x (List.mem_cons_of_mem a hx)) (m0 + 1) (some e)
    refine ⟨oe1, tr1 ++ tr2, ?_, ?_⟩
    · simp only [model_loop]
      rw [hstep]
      dsimp only
      rw [hloop]
      dsimp only
      have harith : m0 + 1 + rest.length = m0 + (rest.length + 1) := by omega
      rw [harith]
      rfl
    · rw [firstFitStates_append, hst1, hst2]
      rw [show (a :: rest).length = rest.length + 1 from rfl,
        List.range_succ_eq_map, List.map_cons, List.map_map, List.singleton_append]
      congr 1
      apply List.map_congr_left
      intro i _
      simp [Function.comp]
      omega

lemma mp_ok_cases {σ : Type} (C : Collab σ) (sp : MPSpecs) (v : Variant)
    (es : List (String × Estimator)) (scorersReg : List String)
    (algolist : List String) (m : σ) (rm : σ) (rt : List (Ev σ))
    (h : model_pipeline C sp v es scorersReg algolist m = Except.ok (rm, rt)) :
    sp.scorer ∈ scorersReg ∧
    ∃ m2 oe2 tl,
      model_loop C sp v es algolist ((sampling_stage C sp v (C.shuffle_data m)).1, none) =
        Except.ok (m2, oe2, tl) ∧
      rt = (Ev.logModelPipeline :: Ev.shuffleData ::
              ((sampling_stage C sp v (C.shuffle_data m)).2 ++ [Ev.getEstimators])) ++ tl ++
           (if algolist.length > 1 then [Ev.blend] else []) ++
           (Ev.metrics "train" :: Ev.metrics "test" :: Ev.predictBest ::
             Ev.plots "train" :: (if sp.test_labels then [Ev.plots "test"] else [])) ++
           [Ev.saveModel "BEST" "test"] := by
  by_cases hsc : sp.scorer ∈ scorersReg
  · refine ⟨hsc, ?_⟩
    simp only [model_pipeline, hsc, if_true] at h
    rcases hl : model_loop C sp v es algolist
        ((sampling_stage C sp v (C.shuffle_data m)).1, none) with e | s
    · rw [hl] at h
      exact absurd h (by simp)
    · obtain ⟨m2, oe2, tl⟩ := s
      rw [hl] at h
      dsimp only at h
      injection h with h
      injection h with hm htr
      have hb : (if algolist.length > 1 then (C.predict_blend m2, [Ev.blend])
          else (m2, ([] : List (Ev σ)))).2 =
          (if algolist.length > 1 then [Ev.blend] else []) := by
        by_cases hlen : algolist.length > 1 <;> simp [hlen]
      rw [hb] at htr
      exact ⟨m2, oe2, tl, rfl, htr.symm⟩
  · simp only [model_pipeline, hsc, if_false] at h
    exact absurd h (by simp)

lemma mp_err_cases {σ : Type} (C : Collab σ) (sp : MPSpecs) (v : Variant)
    (es : List (String × Estimator)) (scorersReg : List String)
    (algolist : List String) (m : σ) (err : PyErr) (rt : List (Ev σ))
    (h : model_pipeline C sp v es scorersReg algolist m = Except.error (err, rt)) :
    rt = Ev.logModelPipeline :: Ev.shuffleData ::
      ((sampling_stage C sp v (C.shuffle_data m)).2 ++ [Ev.getEstimators]) := by
  by_cases hsc : sp.scorer ∈ scorersReg
  · simp only [model_pipeline, hsc, if_true] at h
    rcases hl : model_loop C sp v es algolist
        ((sampling_stage C sp v (C.shuffle_data m)).1, none) with e | s
    · rw [hl] at h
      dsimp only at h
      injection h with h
      injection h with he htr
      exact htr.symm
    · obtain ⟨m2, oe2, tl⟩ := s
      rw [hl] at h
      exact absurd h (by simp)
  · simp only [model_pipeline, hsc, if_false] at h
    injection h with h
    injection h with he htr
    exact htr.symm

lemma pre_trace_evs {σ : Type} (C : Collab σ) (sp : MPSpecs) (v : Variant) (m : σ) :
    ∀ x ∈ (Ev.logModelPipeline :: Ev.shuffleData ::
        ((sampling_stage C sp v (C.shuffle_data m)).2 ++ [Ev.getEstimators]) : List (Ev σ)),
      x = Ev.logModelPipeline ∨ x = Ev.shuffleData ∨ x = Ev.logSkipSampling ∨
      x = Ev.sampleData ∨ x = Ev.sampleWeights ∨ x = Ev.getEstimators := by
  intro x hx
  rcases List.mem_cons.1 hx with rfl | hx2
  · tauto
  rcases List.mem_cons.1 hx2 with rfl | hx3
  · tauto
  rcases List.mem_append.1 hx3 with hx4 | hx4
  · rcases sampling_stage_evs C sp v _ x hx4 with rfl | rfl | rfl <;> tauto
  · rcases List.mem_singleton.1 hx4 with rfl
    tauto

lemma mp_marker {σ : Type} (C : Collab σ) (sp : MPSpecs) (v : Variant)
    (es : List (String × Estimator)) (scorersReg : List String)
    (algolist : List String) (m : σ) :
    Ev.logModelPipeline ∈ resTrace (model_pipeline C sp v es scorersReg algolist m) ∧
    Ev.logScoring ∉ resTrace (model_pipeline C sp v es scorersReg algolist m) := by
  rcases hr : model_pipeline C sp v es scorersReg algolist m with er | r
  · obtain ⟨err, rt⟩ := er
    have hpre := mp_err_cases C sp v es scorersReg algolist m err rt hr
    subst hpre
    constructor
    · simp [resTrace]
    · simp only [resTrace]
      intro hin
      have h2 := pre_trace_evs C sp v m _ hin
      simp at h2
  · obtain ⟨rm, rt⟩ := r
    obtain ⟨-, m2, oe2, tl, hl, htr⟩ := mp_ok_cases C sp v es scorersReg algolist m rm rt hr
    subst htr
    constructor
    · simp [resTrace]
    · simp only [resTrace]
      intro hin
      rcases List.mem_append.1 hin with hin | hin
      · rcases List.mem_append.1 hin with hin | hin
        · rcases List.mem_append.1 hin with hin | hin
          · rcases List.mem_append.1 hin with hin | hin
            · have h2 := pre_trace_evs C sp v m _ hin
              simp at h2
            · have h2 := loop_ok_mem C sp v es algolist _ m2 oe2 tl hl _ hin
              simp [isLoopEv] at h2
          · by_cases hb : algolist.length > 1 <;> simp [hb] at hin
        · simp [List.mem_cons, List.mem_ite_nil_right] at hin
      · simp at hin

lemma step_ok_selectFeatures {σ : Type} (C : Collab σ) (sp : MPSpecs) (v : Variant)
    (es : List (String × Estimator)) (st : σ × Option Estimator) (algo : String)
    (m' : σ) (oe : Option Estimator) (tr : List (Ev σ))
    (h : loop_step C sp v es st algo = Except.ok (m', oe, tr)) :
    (Ev.selectFeatures ∈ tr) ↔ fsGate v sp = true := by
  obtain ⟨e, t0, ht0, -, -, htr, -⟩ := step_ok_cases C sp v es st algo m' oe tr h
  subst htr
  have hnot : (Ev.selectFeatures : Ev σ) ∉ (rfeStage C sp e algo
      (C.first_fit (if fsGate v sp then C.select_features st.1 else st.1) algo e.ename)).2 := by
    intro hmem
    rcases rfeStage_evs C sp e algo _ _ hmem with h1 | h1 | h1 <;> simp at h1
  by_cases hfs : fsGate v sp = true <;>
    rcases ht0 with rfl | rfl <;>
      simp [hfs] at hnot ⊢ <;>
      simp [hfs, hnot, List.mem_append, List.mem_cons, List.mem_ite_nil_right]

/-! ### Claim theorems -/

/-- Claim C1 (code bug).  The claim says an unresolvable algorithm id is
logged and skipped, no exception escapes the loop, and a run with
`algolist = [A, B]` (A unresolvable, B resolving) completes with only B's
artifacts.  The code's `except KeyError` handler only logs and does not
skip: with A first in the list the loop falls through to
`first_fit(model, algo, est)` with `est` never assigned, so a `NameError`
escapes and the run aborts before B is ever processed.  This theorem
evaluates the pipeline at exactly that failing input. -/
theorem c1_unresolved_algo_crashes :
    List.lookup "A" regB = none ∧ List.lookup "B" regB = some estB ∧
    model_pipeline idCollab specs0 Variant.main regB ["auc"] ["A", "B"] 0 =
      Except.error (PyErr.nameError "est",
        [Ev.logModelPipeline, Ev.shuffleData, Ev.logSkipSampling, Ev.sampleWeights,
         Ev.getEstimators]) :=
  ⟨rfl, rfl, rfl⟩

/-- Claim C2 (confirmed).  The data pipeline raises the fatal `IndexError`
naming both column counts exactly when the dropped train and test tables
have unequal column counts; when they are equal it returns successfully,
the merged working table is the untruncated concatenation of the train rows
above the test rows, and the recorded split point is the train row count. -/
theorem c2_shape_error_iff {α σ : Type} (tf : Transforms α) (dropF : Table α → Table α)
    (m : MState α σ) :
    ((data_pipeline tf dropF m =
        Except.error (PyErr.indexError (dropF m.xTrain).cols (dropF m.xTest).cols)) ↔
      (dropF m.xTrain).cols ≠ (dropF m.xTest).cols) ∧
    ((dropF m.xTrain).cols = (dropF m.xTest).cols →
      ∃ m1 log, data_pipeline tf dropF m = Except.ok (m1, log) ∧
        log.merged.rows = (dropF m.xTrain).rows ++ (dropF m.xTest).rows ∧
        log.merged.cols = (dropF m.xTrain).cols ∧
        log.split_point = (dropF m.xTrain).rows.length) := by
  by_cases hc : (dropF m.xTrain).cols = (dropF m.xTest).cols
  · refine ⟨⟨fun h => ?_, fun h => absurd hc h⟩, fun _ => ?_⟩
    · simp [data_pipeline, hc] at h
    · simp only [data_pipeline, hc, if_true]
      exact ⟨_, _, rfl, rfl, rfl, rfl⟩
  · refine ⟨⟨fun _ => hc, fun _ => ?_⟩, fun h => absurd h hc⟩
    simp [data_pipeline, hc]

/-- Witness for C2 at concrete inputs: the mismatched tables (2 vs 3
columns) produce the error, and the matched tables produce the successful
untruncated merge. -/
theorem c2_shape_error_iff_w :
    (data_pipeline idTransforms (fun t => t) mBad =
        Except.error (PyErr.indexError ((fun t => t) mBad.xTrain).cols
          ((fun t => t) mBad.xTest).cols)) ∧
    (∃ m1 log, data_pipeline idTransforms (fun t => t) mWF = Except.ok (m1, log) ∧
      log.merged.rows = ((fun t => t) mWF.xTrain).rows ++ ((fun t => t) mWF.xTest).rows ∧
      log.merged.cols = ((fun t => t) mWF.xTrain).cols ∧
      log.split_point = ((fun t => t) mWF.xTrain).rows.length) :=
  ⟨(c2_shape_error_iff idTransforms (fun t => t) mBad).1.mpr (by decide),
   (c2_shape_error_iff idTransforms (fun t => t) mWF).2 rfl⟩

/-- Claim C3 (confirmed).  When the data pipeline succeeds and every
external transform preserves its input's row count, the recorded split
point equals the train table's row count at the merge, each of the three
re-splits yields a train snapshot of exactly `split_point` rows, and
`rowCount(train) + rowCount(test)` is the same at every snapshot. -/
theorem c3_split_invariant {α σ : Type} (tf : Transforms α) (dropF : Table α → Table α)
    (m : MState α σ) (m1 : MState α σ) (log : DPLog α)
    (h1 : ∀ X p, (tf.create_features X p).rows.length = X.rows.length)
    (h2 : ∀ X, (tf.create_interactions X).rows.length = X.rows.length)
    (h3 : ∀ X, (tf.remove_lv_features X).rows.length = X.rows.length)
    (hok : data_pipeline tf dropF m = Except.ok (m1, log)) :
    log.split_point = (dropF m.xTrain).rows.length ∧
    ∀ s ∈ log.snaps, s.1.rows.length = log.split_point ∧
      s.1.rows.length + s.2.rows.length =
        (dropF m.xTrain).rows.length + (dropF m.xTest).rows.length := by
  by_cases hc : (dropF m.xTrain).cols = (dropF m.xTest).cols
  · simp only [data_pipeline] at hok
    rw [if_pos hc] at hok
    injection hok with hok
    injection hok with hm hlog
    subst hlog
    have hnf : (tf.create_features
        ⟨(dropF m.xTrain).cols, (dropF m.xTrain).rows ++ (dropF m.xTest).rows⟩
        (dropF m.xTrain).rows.length).rows.length =
        (dropF m.xTrain).rows.length + (dropF m.xTest).rows.length := by
      rw [h1]
      exact List.length_append _ _
    have haf : (tf.create_interactions (tf.create_features
        ⟨(dropF m.xTrain).cols, (dropF m.xTrain).rows ++ (dropF m.xTest).rows⟩
        (dropF m.xTrain).rows.length)).rows.length =
        (dropF m.xTrain).rows.length + (dropF m.xTest).rows.length := by
      rw [h2, hnf]
    have hsf : (tf.remove_lv_features (tf.create_interactions (tf.create_features
        ⟨(dropF m.xTrain).cols, (dropF m.xTrain).rows ++ (dropF m.xTest).rows⟩
        (dropF m.xTrain).rows.length))).rows.length =
        (dropF m.xTrain).rows.length + (dropF m.xTest).rows.length := by
      rw [h3, haf]
    refine ⟨rfl, ?_⟩
    intro s hs
    simp only [List.mem_cons, List.not_mem_nil, or_false] at hs
    rcases hs with rfl | rfl | rfl <;>
      constructor <;>
        simp only [array_split2, List.length_take, List.length_drop, hnf, haf, hsf] <;>
        omega
  · simp [data_pipeline, hc] at hok

/-- Witness for C3 on the concrete run: identity transforms preserve row
counts, and the invariant holds on the resulting snapshots. -/
theorem c3_split_invariant_w :
    dpLog0.split_point = ((fun t => t) mWF.xTrain).rows.length ∧
    ∀ s ∈ dpLog0.snaps, s.1.rows.length = dpLog0.split_point ∧
      s.1.rows.length + s.2.rows.length =
        ((fun t => t) mWF.xTrain).rows.length + ((fun t => t) mWF.xTest).rows.length :=
  c3_split_invariant idTransforms (fun t => t) mWF dpOut0 dpLog0
    (fun _ _ => rfl) (fun _ => rfl) (fun _ => rfl) rfl

/-- Claim C7 (confirmed).  `score_with_model` fails fatally when no
persisted model exists at the configured location, before any prediction is
attempted; when the persisted model loads, it predicts on the aggregate's
current test features, computes probability scores exactly for
classification, and performs no fit, no metric computation and no blend. -/
theorem c7_score_path {α σ π β : Type} (persisted : Option π)
    (predictF : π → Table α → β) (predict_probaF : π → Table α → β)
    (mt : MType) (m : MState α σ) :
    (persisted = none →
      ∃ tr, score_with_model persisted predictF predict_probaF mt m =
          Except.error (PyErr.loadFailure, tr) ∧
        Ev.predictTest ∉ tr ∧ Ev.predictProba ∉ tr) ∧
    (∀ p, persisted = some p →
      ∃ rec tr, score_with_model persisted predictF predict_probaF mt m =
          Except.ok (rec, tr) ∧
        rec.preds = predictF p m.xTest ∧
        rec.probas = (if mt = MType.classification
          then some (predict_probaF p m.xTest) else none) ∧
        Ev.predictTest ∈ tr ∧
        (∀ a b s, Ev.firstFit a b s ∉ tr) ∧ (∀ s, Ev.metrics s ∉ tr) ∧
        Ev.blend ∉ tr) := by
  constructor
  · rintro rfl
    exact ⟨[Ev.logScoring], rfl, by simp, by simp⟩
  · rintro p rfl
    cases mt with
    | classification =>
      refine ⟨{ preds := predictF p m.xTest, probas := some (predict_probaF p m.xTest) },
        [Ev.logScoring, Ev.loadModel, Ev.predictTest, Ev.predictProba],
        rfl, rfl, rfl, by simp, ?_, ?_, by simp⟩
      · intro a b s
        simp
      · intro s
        simp
    | regression =>
      refine ⟨{ preds := predictF p m.xTest, probas := none },
        [Ev.logScoring, Ev.loadModel, Ev.predictTest],
        rfl, rfl, rfl, by simp, ?_, ?_, by simp⟩
      · intro a b s
        simp
      · intro s
        simp

/-- Witness for C7: a missing persisted model fails before prediction, and
a present one predicts with probabilities for classification. -/
theorem c7_score_path_w :
    (∃ tr, score_with_model (none : Option Nat) (fun p (t : Table Nat) => p + t.rows.length)
        (fun p t => p * t.rows.length) MType.classification (mWF) =
        Except.error (PyErr.loadFailure, tr) ∧
      Ev.predictTest ∉ tr ∧ Ev.predictProba ∉ tr) ∧
    (∃ rec tr, score_with_model (some 7) (fun p (t : Table Nat) => p + t.rows.length)
        (fun p t => p * t.rows.length) MType.classification (mWF) =
        Except.ok (rec, tr) ∧
      rec.preds = (fun p (t : Table Nat) => p + t.rows.length) 7 mWF.xTest ∧
      rec.probas = (if MType.classification = MType.classification
        then some ((fun p (t : Table Nat) => p * t.rows.length) 7 mWF.xTest) else none) ∧
      Ev.predictTest ∈ tr ∧
      (∀ a b s, Ev.firstFit a b s ∉ tr) ∧ (∀ s, Ev.metrics s ∉ tr) ∧ Ev.blend ∉ tr) :=
  ⟨(c7_score_path none (fun p t => p + t.rows.length) (fun p t => p * t.rows.length)
      MType.classification mWF).1 rfl,
   (c7_score_path (some 7) (fun p t => p + t.rows.length) (fun p t => p * t.rows.length)
      MType.classification mWF).2 7 rfl⟩

/-- Claim C8 (confirmed).  When the configured scoring-metric name is
absent from the scorer registry, `model_pipeline` raises the fatal
`KeyError` before the per-algorithm loop: no algorithm is fitted, no
predictions are generated, no blend happens, and nothing is persisted. -/
theorem c8_unknown_scorer_fatal {σ : Type} (C : Collab σ) (sp : MPSpecs) (v : Variant)
    (es : List (String × Estimator)) (scorersReg : List String)
    (algolist : List String) (m : σ)
    (h : sp.scorer ∉ scorersReg) :
    ∃ tr, model_pipeline C sp v es scorersReg algolist m =
        Except.error (PyErr.keyError sp.scorer, tr) ∧
      (∀ a b s, Ev.firstFit a b s ∉ tr) ∧ (∀ a, Ev.makePredictions a ∉ tr) ∧
      Ev.blend ∉ tr ∧ (∀ t s, Ev.saveModel t s ∉ tr) := by
  have heq : model_pipeline C sp v es scorersReg algolist m =
      Except.error (PyErr.keyError sp.scorer,
        Ev.logModelPipeline :: Ev.shuffleData ::
          ((sampling_stage C sp v (C.shuffle_data m)).2 ++ [Ev.getEstimators])) := by
    simp only [model_pipeline]
    rw [if_neg h]
  refine ⟨_, heq, ?_, ?_, ?_, ?_⟩
  · intro a b s hmem
    have h2 := pre_trace_evs C sp v m _ hmem
    simp at h2
  · intro a hmem
    have h2 := pre_trace_evs C sp v m _ hmem
    simp at h2
  · intro hmem
    have h2 := pre_trace_evs C sp v m _ hmem
    simp at h2
  · intro t s hmem
    have h2 := pre_trace_evs C sp v m _ hmem
    simp at h2

/-- Witness for C8 at a concrete unknown scorer name. -/
theorem c8_unknown_scorer_fatal_w :
    ∃ tr, model_pipeline idCollab specsBad Variant.main reg2 ["auc"] ["A", "B"] 0 =
        Except.error (PyErr.keyError specsBad.scorer, tr) ∧
      (∀ a b s, Ev.firstFit a b s ∉ tr) ∧ (∀ a, Ev.makePredictions a ∉ tr) ∧
      Ev.blend ∉ tr ∧ (∀ t s, Ev.saveModel t s ∉ tr) :=
  c8_unknown_scorer_fatal idCollab specsBad Variant.main reg2 ["auc"] ["A", "B"] 0
    (by decide)

/-- Claim C9 (confirmed).  Once the data pipeline has succeeded,
`main_pipeline` runs exactly one of the two terminal stages, selected by
the scoring flag: in scoring mode the scoring path runs (its `SCORING` log
marker appears) and the model pipeline does not (its `MODEL PIPELINE`
marker is absent); with the flag off it is the other way round. -/
theorem c9_branch_exclusive {α σ π β : Type} (tf : Transforms α)
    (dropF : Table α → Table α) (C : Collab (MState α σ)) (sp : MPSpecs)
    (scoring_mode : Bool) (v : Variant) (es : List (String × Estimator))
    (scorersReg : List String) (algolist : List String) (persisted : Option π)
    (predictF : π → Table α → β) (predict_probaF : π → Table α → β)
    (m m1 : MState α σ) (log : DPLog α)
    (hdp : data_pipeline tf dropF m = Except.ok (m1, log)) :
    (scoring_mode = true →
      Ev.logScoring ∈ resTrace (main_pipeline tf dropF C sp scoring_mode v es scorersReg
        algolist persisted predictF predict_probaF m) ∧
      Ev.logModelPipeline ∉ resTrace (main_pipeline tf dropF C sp scoring_mode v es
        scorersReg algolist persisted predictF predict_probaF m)) ∧
    (scoring_mode = false →
      Ev.logModelPipeline ∈ resTrace (main_pipeline tf dropF C sp scoring_mode v es
        scorersReg algolist persisted predictF predict_probaF m) ∧
      Ev.logScoring ∉ resTrace (main_pipeline tf dropF C sp scoring_mode v es scorersReg
        algolist persisted predictF predict_probaF m)) := by
  constructor
  · rintro rfl
    have hmain : main_pipeline tf dropF C sp true v es scorersReg algolist persisted
        predictF predict_probaF m =
        match score_with_model persisted predictF predict_probaF sp.model_type m1 with
        | Except.error et => Except.error et
        | Except.ok (_, tr) => Except.ok (m1, tr) := by
      simp [main_pipeline, hdp]
    rw [hmain]
    rcases persisted with _ | p
    · constructor <;> simp [score_with_model, resTrace]
    · cases hmt : sp.model_type <;> constructor <;>
        simp [score_with_model, hmt, resTrace]
  · rintro rfl
    have hmain : main_pipeline tf dropF C sp false v es scorersReg algolist persisted
        predictF predict_probaF m = model_pipeline C sp v es scorersReg algolist m1 := by
      simp [main_pipeline, hdp]
    rw [hmain]
    exact mp_marker C sp v es scorersReg algolist m1

/-- Witness for C9 on concrete runs in both modes. -/
theorem c9_branch_exclusive_w :
    (Ev.logScoring ∈ resTrace (main_pipeline idTransforms (fun t => t) idCollabM specs0
        true Variant.main regB ["auc"] ["B"] (some 7)
        (fun p (t : Table Nat) => p + t.rows.length)
        (fun p t => p * t.rows.length) mWF) ∧
      Ev.logModelPipeline ∉ resTrace (main_pipeline idTransforms (fun t => t) idCollabM
        specs0 true Variant.main regB ["auc"] ["B"] (some 7)
        (fun p (t : Table Nat) => p + t.rows.length)
        (fun p t => p * t.rows.length) mWF)) ∧
    (Ev.logModelPipeline ∈ resTrace (main_pipeline idTransforms (fun t => t) idCollabM
        specs0 false Variant.main regB ["auc"] ["B"] (some 7)
        (fun p (t : Table Nat) => p + t.rows.length)
        (fun p t => p * t.rows.length) mWF) ∧
      Ev.logScoring ∉ resTrace (main_pipeline idTransforms (fun t => t) idCollabM specs0
        false Variant.main regB ["auc"] ["B"] (some 7)
        (fun p (t : Table Nat) => p + t.rows.length)
        (fun p t => p * t.rows.length) mWF)) :=
  ⟨(c9_branch_exclusive idTransforms (fun t => t) idCollabM specs0 true Variant.main regB
      ["auc"] ["B"] (some 7) (fun p t => p + t.rows.length) (fun p t => p * t.rows.length)
      mWF dpOut0 dpLog0 rfl).1 rfl,
   (c9_branch_exclusive idTransforms (fun t => t) idCollabM specs0 false Variant.main regB
      ["auc"] ["B"] (some 7) (fun p t => p + t.rows.length) (fun p t => p * t.rows.length)
      mWF dpOut0 dpLog0 rfl).2 rfl⟩

/-- Claim C10 (confirmed).  In scoring mode, `main_pipeline` returns exactly
the aggregate produced by the data pipeline: `score_with_model`'s result is
discarded (its call is unbound in the source), so no effect of the scoring
path — for any loaded predictor or prediction functions — appears in the
returned model state. -/
theorem c10_scoring_returns_dp_model {α σ π β : Type} (tf : Transforms α)
    (dropF : Table α → Table α) (C : Collab (MState α σ)) (sp : MPSpecs)
    (v : Variant) (es : List (String × Estimator)) (scorersReg : List String)
    (algolist : List String) (p : π) (predictF : π → Table α → β)
    (predict_probaF : π → Table α → β) (m m1 : MState α σ) (log : DPLog α)
    (hdp : data_pipeline tf dropF m = Except.ok (m1, log)) :
    ∃ tr, main_pipeline tf dropF C sp true v es scorersReg algolist (some p)
        predictF predict_probaF m = Except.ok (m1, tr) := by
  have hmain : main_pipeline tf dropF C sp true v es scorersReg algolist (some p)
      predictF predict_probaF m =
      match score_with_model (some p) predictF predict_probaF sp.model_type m1 with
      | Except.error et => Except.error et
      | Except.ok (_, tr) => Except.ok (m1, tr) := by
    simp [main_pipeline, hdp]
  rw [hmain]
  cases hmt : sp.model_type <;> simp [score_with_model, hmt]

/-- Witness for C10 on a concrete scoring-mode run. -/
theorem c10_scoring_returns_dp_model_w :
    ∃ tr, main_pipeline idTransforms (fun t => t) idCollabM specs0 true Variant.main regB
        ["auc"] ["B"] (some 7) (fun p (t : Table Nat) => p + t.rows.length)
        (fun p t => p * t.rows.length) mWF = Except.ok (dpOut0, tr) :=
  c10_scoring_returns_dp_model idTransforms (fun t => t) idCollabM specs0 Variant.main
    regB ["auc"] ["B"] 7 (fun p t => p + t.rows.length) (fun p t => p * t.rows.length)
    mWF dpOut0 dpLog0 rfl

/-- Claim C5 (confirmed).  For an algorithm that resolves against the
registry, with recursive feature elimination requested, the loop body
chooses the elimination method by the three-way branch: cross-validated
elimination exactly when the estimator has a usable scoring function, else
coefficient-based elimination exactly when it exposes coefficients, else a
logged skip — with no further fallback. -/
theorem c5_rfe_three_way {σ : Type} (C : Collab σ) (sp : MPSpecs) (v : Variant)
    (es : List (String × Estimator)) (st : σ × Option Estimator) (algo : String)
    (e : Estimator)
    (hres : List.lookup algo es = some e) (hrfe : sp.rfe = true) :
    ∃ m' oe tr, loop_step C sp v es st algo = Except.ok (m', oe, tr) ∧
      ((Ev.rfecv algo ∈ tr) ↔ e.scoring = true) ∧
      ((Ev.rfeCoef algo ∈ tr) ↔ (e.scoring = false ∧ e.hasCoef = true)) ∧
      ((Ev.logNoRFE algo ∈ tr) ↔ (e.scoring = false ∧ e.hasCoef = false)) := by
  rcases hsv : loop_step C sp v es st algo with err | s1
  · simp [loop_step, hres] at hsv
  · obtain ⟨m1, oe1, tr1⟩ := s1
    obtain ⟨e1, t0, ht0, hlk, -, htr, -⟩ := step_ok_cases C sp v es st algo m1 oe1 tr1 hsv
    have he1 : e1 = e := by
      rcases hlk with hlk | ⟨hlk, -⟩
      · rw [hres] at hlk
        injection hlk with hv
        exact hv.symm
      · rw [hres] at hlk; cases hlk
    subst he1
    refine ⟨m1, oe1, tr1, rfl, ?_, ?_, ?_⟩ <;>
      subst htr <;>
      cases hsc : e1.scoring <;> cases hco : e1.hasCoef <;>
        rcases ht0 with rfl | rfl <;>
          simp [rfeStage, hrfe, hsc, hco, List.mem_append, List.mem_cons,
            List.mem_ite_nil_right]

/-- Witness for C5 on a concrete resolving algorithm without a scoring
function but with coefficients: coefficient-based elimination is chosen. -/
theorem c5_rfe_three_way_w :
    ∃ m' oe tr, loop_step idCollab specsRfe Variant.main reg2 ((0 : Nat), none) "A" =
        Except.ok (m', oe, tr) ∧
      ((Ev.rfecv "A" ∈ tr) ↔ estA.scoring = true) ∧
      ((Ev.rfeCoef "A" ∈ tr) ↔ (estA.scoring = false ∧ estA.hasCoef = true)) ∧
      ((Ev.logNoRFE "A" ∈ tr) ↔ (estA.scoring = false ∧ estA.hasCoef = false)) :=
  c5_rfe_three_way idCollab specsRfe Variant.main reg2 (0, none) "A" estA rfl rfl

/-- Counterexample for C6.  The claim says the selector runs in every loop
iteration whenever feature selection is enabled, regardless of other
options such as hyperparameter search.  In the `alpha.py` entry point the
guard is `if feature_selection and not grid_search:`, so with feature
selection and grid search both enabled the run completes without a single
`select_features` call. -/
theorem c6_counterexample :
    specsFS.feature_selection = true ∧
    (model_pipeline idCollab specsFS Variant.alphaMod regB ["auc"] ["B"] 0).isOk = true ∧
    Ev.selectFeatures ∉
      resTrace (model_pipeline idCollab specsFS Variant.alphaMod regB ["auc"] ["B"] 0) := by
  refine ⟨rfl, rfl, ?_⟩
  decide

/-- Claim C6 as amended.  In a loop iteration that completes, the selector
is invoked exactly when feature selection is enabled AND (the entry point is
`__main__.py` OR grid search is disabled) — `alpha.py` additionally gates on
`not grid_search`.  Moreover the selector's mutation is applied to the
shared model state: counting `select_features` applications as increments,
the state seen by the i-th algorithm's `first_fit` is the initial state plus
i+1, so every later algorithm observes all earlier reductions, and the loop
returns the state mutated once per iteration. -/
theorem c6_select_features_gate :
    (∀ (σ : Type) (C : Collab σ) (sp : MPSpecs) (v : Variant)
        (es : List (String × Estimator)) (st : σ × Option Estimator) (algo : String)
        (m' : σ) (oe : Option Estimator) (tr : List (Ev σ)),
        loop_step C sp v es st algo = Except.ok (m', oe, tr) →
        ((Ev.selectFeatures ∈ tr) ↔
          (sp.feature_selection = true ∧ (v = Variant.main ∨ sp.grid_search = false)))) ∧
    (∀ (sp : MPSpecs) (v : Variant) (es : List (String × Estimator))
        (algos : List String) (m0 : Nat) (oe0 : Option Estimator),
        sp.feature_selection = true → sp.grid_search = false →
        (∀ a ∈ algos, (List.lookup a es).isSome = true) →
        ∃ oe1 tr, model_loop countCollab sp v es algos (m0, oe0) =
            Except.ok (m0 + algos.length, oe1, tr) ∧
          firstFitStates tr = (List.range algos.length).map (fun i => m0 + i + 1)) := by
  constructor
  · intro σ C sp v es st algo m' oe tr h
    have hgate : fsGate v sp = true ↔
        (sp.feature_selection = true ∧ (v = Variant.main ∨ sp.grid_search = false)) := by
      cases v <;> simp [fsGate]
    rw [← hgate]
    exact step_ok_selectFeatures C sp v es st algo m' oe tr h
  · intro sp v es algos m0 oe0 hfs hgs hall
    exact countCollab_loop sp v es hfs hgs algos hall m0 oe0

/-- Witness for C6: the gate fact instantiated on a concrete completed
iteration of the `__main__` variant, and the mutation-counting fact on a
concrete resolving list in the `alpha` variant. -/
theorem c6_select_features_gate_w :
    (∃ tr, loop_step idCollab specsFSNG Variant.main regB ((0 : Nat), none) "B" =
        Except.ok ((0 : Nat), some estB, tr) ∧
      ((Ev.selectFeatures ∈ tr) ↔
        (specsFSNG.feature_selection = true ∧
          (Variant.main = Variant.main ∨ specsFSNG.grid_search = false)))) ∧
    (∃ oe1 tr, model_loop countCollab specsFSNG Variant.alphaMod regB ["B"] (5, none) =
        Except.ok (5 + (["B"] : List String).length, oe1, tr) ∧
      firstFitStates tr = (List.range (["B"] : List String).length).map (fun i => 5 + i + 1)) :=
  ⟨⟨_, rfl, c6_select_features_gate.1 Nat idCollab specsFSNG Variant.main regB
      (0, none) "B" 0 (some estB) _ rfl⟩,
   c6_select_features_gate.2 specsFSNG Variant.alphaMod regB ["B"] 5 none rfl rfl
     (by decide)⟩

/-- Claim C4 (confirmed).  On a completed `model_pipeline` run with a
duplicate-free algorithm list, the blending stage runs exactly when more
than one algorithm produced per-algorithm prediction artifacts during the
loop; with exactly one artifact-producing algorithm no blend entry appears
in the trace.  (In this code every loop iteration reaches
`make_predictions`, so on completed runs the artifact count equals the
configured list length that the blend guard `len(model.algolist) > 1`
tests.) -/
theorem c4_blend_iff_artifacts {σ : Type} (C : Collab σ) (sp : MPSpecs) (v : Variant)
    (es : List (String × Estimator)) (scorersReg : List String)
    (algolist : List String) (m : σ) (rm : σ) (rt : List (Ev σ))
    (hnd : algolist.Nodup)
    (hok : model_pipeline C sp v es scorersReg algolist m = Except.ok (rm, rt)) :
    ((Ev.blend ∈ rt) ↔ 1 < (artifactAlgos rt).dedup.length) ∧
    ((artifactAlgos rt).dedup.length = 1 → Ev.blend ∉ rt) := by
  obtain ⟨-, m2, oe2, tl, hl, htr⟩ := mp_ok_cases C sp v es scorersReg algolist m rm rt hok
  subst htr
  have hart : artifactAlgos tl = algolist :=
    loop_ok_artifacts C sp v es algolist _ m2 oe2 tl hl
  have hpre0 : artifactAlgos (Ev.logModelPipeline :: Ev.shuffleData ::
      ((sampling_stage C sp v (C.shuffle_data m)).2 ++ [Ev.getEstimators]) : List (Ev σ)) = [] := by
    rw [artifactAlgos, List.filterMap_eq_nil_iff]
    intro x hx
    rcases pre_trace_evs C sp v m x hx with rfl | rfl | rfl | rfl | rfl | rfl <;> rfl
  have hbif : artifactAlgos
      (if algolist.length > 1 then [Ev.blend] else ([] : List (Ev σ))) = [] := by
    by_cases hb : algolist.length > 1 <;> simp [hb, artifactAlgos, artifactOf]
  have hmid : artifactAlgos ((Ev.metrics "train" :: Ev.metrics "test" :: Ev.predictBest ::
      Ev.plots "train" :: (if sp.test_labels then [Ev.plots "test"] else [])) :
        List (Ev σ)) = [] := by
    by_cases ht : sp.test_labels = true <;>
      simp [ht, artifactAlgos, List.filterMap_cons, artifactOf]
  have hra : artifactAlgos ((Ev.logModelPipeline :: Ev.shuffleData ::
      ((sampling_stage C sp v (C.shuffle_data m)).2 ++ [Ev.getEstimators])) ++ tl ++
      (if algolist.length > 1 then [Ev.blend] else []) ++
      (Ev.metrics "train" :: Ev.metrics "test" :: Ev.predictBest ::
        Ev.plots "train" :: (if sp.test_labels then [Ev.plots "test"] else [])) ++
      [Ev.saveModel "BEST" "test"]) = algolist := by
    rw [artifactAlgos_append, artifactAlgos_append, artifactAlgos_append,
      artifactAlgos_append, hpre0, hart, hbif, hmid]
    simp [artifactAlgos, artifactOf]
  have hblsmp : (Ev.blend : Ev σ) ∉ (sampling_stage C sp v (C.shuffle_data m)).2 := by
    intro hx
    rcases sampling_stage_evs C sp v _ _ hx with h2 | h2 | h2 <;> simp at h2
  have hbltl : (Ev.blend : Ev σ) ∉ tl := by
    intro hx
    have h2 := loop_ok_mem C sp v es algolist _ m2 oe2 tl hl _ hx
    simp [isLoopEv] at h2
  have hbl : (Ev.blend ∈ ((Ev.logModelPipeline :: Ev.shuffleData ::
      ((sampling_stage C sp v (C.shuffle_data m)).2 ++ [Ev.getEstimators])) ++ tl ++
      (if algolist.length > 1 then [Ev.blend] else []) ++
      (Ev.metrics "train" :: Ev.metrics "test" :: Ev.predictBest ::
        Ev.plots "train" :: (if sp.test_labels then [Ev.plots "test"] else [])) ++
      [Ev.saveModel "BEST" "test"])) ↔ algolist.length > 1 := by
    by_cases hb : algolist.length > 1 <;>
      simp [hb, List.mem_append, hblsmp, hbltl, List.mem_cons, List.mem_ite_nil_right]
  constructor
  · rw [hbl, hra, List.dedup_eq_self.mpr hnd]
  · intro h1
    rw [hra, List.dedup_eq_self.mpr hnd] at h1
    rw [hbl]
    omega

/-- Witness for C4 on the concrete completed two-algorithm run: the blend
entry appears and the artifact count is two. -/
theorem c4_blend_iff_artifacts_w :
    ∃ rm rt, model_pipeline idCollab specs0 Variant.main reg2 ["auc"] ["A", "B"] 0 =
        Except.ok (rm, rt) ∧
      ((Ev.blend ∈ rt) ↔ 1 < (artifactAlgos rt).dedup.length) ∧
      ((artifactAlgos rt).dedup.length = 1 → Ev.blend ∉ rt) :=
  ⟨_, _, rfl, c4_blend_iff_artifacts idCollab specs0 Variant.main reg2 ["auc"]
    ["A", "B"] 0 _ _ (by decide) rfl⟩

end AlphaPy
